import Mathlib

/-!
Verification development for the Flow-Saver dashboard's resilient session
layer: the Aether HTTP client (retry/timeout engine, session identity,
chat single-flight) and the ClaudeTerminal process-session wrapper.

The definitions below are shallow embeddings of the JavaScript source:
`AetherClient` (aether-client script) and `ClaudeTerminal`
(claude-terminal module). Transport behaviour, clocks and random sources
are passed in as explicit parameters; everything else follows the source
line by line.
-/

namespace AetherClient

/-- Outcome of one transport attempt inside `AetherClient.request`.
`ok data` stands for a response with `response.ok` true whose body decoded;
`httpError` for a response with a non-success status (the loop throws
an Error with message built from status and statusText); `networkError`
for any other rejection of the attempt (fetch failure, body decode
failure), carrying the thrown error's message; `abortError` for the
attempt's timeout firing (an AbortError). -/
inductive AttemptOutcome where
  | ok (data : String)
  | httpError (status : Nat) (statusText : String)
  | networkError (msg : String)
  | abortError
deriving DecidableEq

/-- Whether an attempt outcome takes the catch path of the loop. -/
def AttemptOutcome.isFailure : AttemptOutcome → Bool
  | .ok _ => false
  | _ => true

/-- The `error.message` seen by the catch block for a failed attempt.
For an AbortError the source overwrites the message with the
timed-out text (the source divides the millisecond timeout by 1000;
it is modelled with Nat division, exact for the source's constants). -/
def failMessage (timeout : Nat) : AttemptOutcome → String
  | .httpError status statusText => "HTTP " ++ toString status ++ ": " ++ statusText
  | .networkError msg => msg
  | .abortError => "Request timed out after " ++ toString (timeout / 1000) ++ " seconds"
  | .ok _ => ""

/-- The terminal error message thrown when the last attempt fails:
a distinguished text for a timeout, otherwise a generic connection-failed
text wrapping the last cause's message. -/
def terminalMessage (timeout : Nat) (f : AttemptOutcome) : String :=
  match f with
  | .abortError => "The AI is taking too long to respond. Please try again."
  | f => "Connection failed: " ++ failMessage timeout f

/-- How one call of `AetherClient.request` settles: a decoded body,
a thrown terminal error, or the loop falling through without returning
(only possible when retryCount is zero; the JS function then yields
undefined). -/
inductive ReqOutcome where
  | success (data : String)
  | failure (msg : String)
  | noReturn
deriving DecidableEq

/-- Whether the call settled with a decoded body. -/
def ReqOutcome.isSuccess : ReqOutcome → Bool
  | .success _ => true
  | _ => false

/-- Observable trace of one `request` call: how it settled, how many
transport attempts were made, and the backoff delays awaited between
attempts, in order. -/
structure ReqTrace where
  outcome : ReqOutcome
  attempts : Nat
  delays : List Nat
deriving DecidableEq

/-- The retry loop of `AetherClient.request`, from the attempt counter
`attempt` on. `behaviour k` is what the transport does on attempt `k`.
`fuel` bounds the remaining iterations; `request` supplies `retryCount`,
which is exact for the source loop `for attempt = 1..retryCount`. -/
def requestFrom (behaviour : Nat → AttemptOutcome) (retryCount retryDelay timeout : Nat)
    (attempt : Nat) : (fuel : Nat) → ReqTrace
  | 0 => ⟨.noReturn, 0, []⟩
  | fuel + 1 =>
    match behaviour attempt with
    | .ok data => ⟨.success data, 1, []⟩
    | f =>
      if attempt = retryCount then
        ⟨.failure (terminalMessage timeout f), 1, []⟩
      else
        let rest := requestFrom behaviour retryCount retryDelay timeout (attempt + 1) fuel
        ⟨rest.outcome, rest.attempts + 1, retryDelay * attempt :: rest.delays⟩

/-- `AetherClient.request`: up to `retryCount` attempts of the same call,
waiting `retryDelay * attempt` ms after each failed non-final attempt. -/
def request (behaviour : Nat → AttemptOutcome) (retryCount retryDelay timeout : Nat) : ReqTrace :=
  requestFrom behaviour retryCount retryDelay timeout 1 retryCount

/-- Constructor default `this.retryCount = 3`. -/
def defaultRetryCount : Nat := 3

/-- Constructor default `this.retryDelay = 1000`. -/
def defaultRetryDelay : Nat := 1000

/-- Module constant REQUEST_TIMEOUT (30 seconds). -/
def REQUEST_TIMEOUT : Nat := 30000

/-- Module constant CHAT_TIMEOUT (90 seconds). -/
def CHAT_TIMEOUT : Nat := 90000

/-- The localStorage slot for the key aether_session_id: absent or a
stored string. -/
abbrev Storage := Option String

/-- The fresh session token built by `getOrCreateSessionId` from
Date.now (`now`) and the random suffix Math.random produces (`rand`). -/
def freshToken (now : Nat) (rand : String) : String :=
  "session_" ++ toString now ++ "_" ++ rand

/-- `AetherClient.getOrCreateSessionId`: read the stored token; when it
is absent (or an empty string, which JS treats as falsy) generate a fresh
one and persist it. Returns the token and the updated storage. -/
def getOrCreateSessionId (store : Storage) (now : Nat) (rand : String) : String × Storage :=
  match store with
  | some s =>
    if s == "" then
      let sessionId := freshToken now rand
      (sessionId, some sessionId)
    else
      (s, some s)
  | none =>
    let sessionId := freshToken now rand
    (sessionId, some sessionId)

/-- `AetherClient.clearSession`: remove the stored token, then
immediately re-create one via `getOrCreateSessionId`. Returns the new
current token (assigned to this.sessionId) and the updated storage. -/
def clearSession (_store : Storage) (now : Nat) (rand : String) : String × Storage :=
  getOrCreateSessionId none now rand

/-- The JSON body of a successful chat reply, as `sendChatMessage` reads
it: optional `response` and `message` fields (absent or empty strings are
falsy in the source's fallback chain). -/
structure ChatResponse where
  response : Option String
  message : Option String
deriving DecidableEq

/-- JS `a || b` on an optional string field: `b` when the field is
absent or the empty string. -/
def jsOrStr (a : Option String) (b : String) : String :=
  match a with
  | none => b
  | some s => if s == "" then b else s

/-- The structured result object `sendChatMessage` resolves with.
The source's success object carries no `error` field and its failure
object carries no `response` field; the absent field is `none` here. -/
structure ChatResult where
  success : Bool
  response : Option String
  error : Option String
  sessionId : String
  timestamp : String
deriving DecidableEq

/-- How one call of `sendChatMessage` settles for its caller: the async
function either throws (the returned promise rejects) or resolves with a
`ChatResult`. -/
inductive ChatCallResult where
  | thrown (msg : String)
  | resolved (r : ChatResult)
deriving DecidableEq

/-- Whether the call resolved (did not raise to its caller). -/
def ChatCallResult.isResolved : ChatCallResult → Bool
  | .resolved _ => true
  | .thrown _ => false

/-- The client fields `sendChatMessage` reads and writes: the persistent
session id and the single-flight flag `isRequestInProgress`. -/
structure ClientState where
  sessionId : String
  isRequestInProgress : Bool
deriving DecidableEq

/-- The single-flight guard at the top of `sendChatMessage`: when a chat
request is already in progress the function throws before any transport
work; otherwise it sets the in-flight flag and proceeds to dispatch. -/
def chatGuard (st : ClientState) : Option ClientState :=
  if st.isRequestInProgress then
    none
  else
    some { st with isRequestInProgress := true }

/-- The try/catch/finally body of `sendChatMessage` around the transport
call: a successful reply resolves with a success object (applying the
source's fallback chain response.response, then response.message, then
a fixed text), a thrown transport error resolves with a failure object,
and in both cases the finally block clears the in-flight flag. `ts` is
the ISO timestamp taken at result construction. -/
def chatSettle (st : ClientState) (transport : Except String ChatResponse) (ts : String) :
    ChatCallResult × ClientState :=
  match transport with
  | .ok resp =>
    (.resolved ⟨true, some (jsOrStr resp.response (jsOrStr resp.message "No response")),
        none, st.sessionId, ts⟩,
      { st with isRequestInProgress := false })
  | .error e =>
    (.resolved ⟨false, none, some e, st.sessionId, ts⟩,
      { st with isRequestInProgress := false })

/-- `AetherClient.sendChatMessage` as one settled call: guard, then
dispatch and settle. The middle component records whether `this.request`
was invoked (a transport attempt was made). -/
def sendChatMessage (st : ClientState) (transport : Except String ChatResponse) (ts : String) :
    ChatCallResult × Bool × ClientState :=
  match chatGuard st with
  | none => (.thrown "Another request is already in progress. Please wait.", false, st)
  | some st1 =>
    let settled := chatSettle st1 transport ts
    (settled.1, true, settled.2)

/-- The decoded body of the chat-history endpoint. -/
structure ChatHistory where
  messages : List String
deriving DecidableEq

/-- `AetherClient.getChatHistory`: return the decoded history, and on any
failure of the underlying request resolve with an empty message list
instead of propagating the error. -/
def getChatHistory (transport : Except String ChatHistory) : ChatHistory :=
  match transport with
  | .ok h => h
  | .error _ => ⟨[]⟩

end AetherClient

namespace ClaudeTerminal

/-- The mutable fields of a ClaudeTerminal instance: the pty handle
(opaque, identified by a number; `none` before any spawn) and the
running flag. -/
structure TermState where
  ptyProcess : Option Nat
  isRunning : Bool
deriving DecidableEq

/-- Constructor state: no pty process, not running. -/
def initialTerm : TermState := ⟨none, false⟩

/-- Events the terminal emits to its listeners. -/
inductive TermEvent where
  | output (data : String)
  | ready
  | exited
  | errored (msg : String)
deriving DecidableEq

/-- Interactions sent to the underlying pty process. -/
inductive PtyAction where
  | write (data : String)
  | resize (cols rows : Nat)
  | kill
deriving DecidableEq

/-- `ClaudeTerminal.startSession`: a no-op when already running;
otherwise spawn the shell. `spawnResult` is what pty.spawn does:
a fresh handle, or a thrown error message. On success the handle is
stored, the running flag set and a ready event emitted; on spawn failure
the catch block emits an error event and the fields are untouched
(the assignment never completed). Returns emitted events and the new
state. -/
def startSession (st : TermState) (spawnResult : Except String Nat) : List TermEvent × TermState :=
  if st.isRunning then
    ([], st)
  else
    match spawnResult with
    | .ok h => ([.ready], ⟨some h, true⟩)
    | .error e => ([.errored e], st)

/-- The onExit handler installed by `startSession`: the underlying
process ended on its own, so clear the running flag and emit an exit
event. The handle field is not cleared. -/
def processExit (st : TermState) : List TermEvent × TermState :=
  ([.exited], { st with isRunning := false })

/-- `ClaudeTerminal.write`: forward the data to the pty only when a
process exists and the session is running; otherwise do nothing.
Returns the actions sent and the (unchanged) state. -/
def write (st : TermState) (data : String) : List PtyAction × TermState :=
  if st.ptyProcess.isSome && st.isRunning then
    ([.write data], st)
  else
    ([], st)

/-- `ClaudeTerminal.resize`: forward the new geometry to the pty only
when a process exists and the session is running; otherwise do
nothing. -/
def resize (st : TermState) (cols rows : Nat) : List PtyAction × TermState :=
  if st.ptyProcess.isSome && st.isRunning then
    ([.resize cols rows], st)
  else
    ([], st)

/-- `ClaudeTerminal.kill`: when a pty process exists, kill it and clear
the running flag; the handle field keeps its value. -/
def kill (st : TermState) : List PtyAction × TermState :=
  if st.ptyProcess.isSome then
    ([.kill], { st with isRunning := false })
  else
    ([], st)

/-- States a ClaudeTerminal instance can be in: the constructor state,
closed under startSession for every spawn result, under the pty's own
exit notification, and under kill. write and resize never change the
state. -/
inductive Reachable : TermState → Prop where
  | init : Reachable initialTerm
  | start (st : TermState) (r : Except String Nat) :
      Reachable st → Reachable (startSession st r).2
  | exitStep (st : TermState) : Reachable st → Reachable (processExit st).2
  | killStep (st : TermState) : Reachable st → Reachable (kill st).2

/-- The task object `launchClaudeCode` reads: a title and an optional
priority (absent or empty is falsy in the source's check). -/
structure Task where
  title : String
  priority : Option String
deriving DecidableEq

/-- JS truthiness of an optional string: present and non-empty. -/
def strTruthy : Option String → Bool
  | none => false
  | some s => !(s == "")

/-- The command string composed by `ClaudeTerminal.launchClaudeCode`:
start from the fixed invocation, append a context flag with the task
title when a task is given, a second with its priority when that is
truthy, and a third with the free-form context data verbatim when that
is truthy. (The composed line is then written to the session after a
banner line; composition itself is pure.) -/
def launchCommand (currentTask : Option Task) (contextData : Option String) : String :=
  let c0 := "claude"
  let c1 :=
    match currentTask with
    | none => c0
    | some t =>
      let ct := c0 ++ " --context \"Current Task: " ++ t.title ++ "\""
      if strTruthy t.priority then
        ct ++ " --context \"Priority: " ++ t.priority.getD "" ++ "\""
      else
        ct
  if strTruthy contextData then
    c1 ++ " --context \"" ++ contextData.getD "" ++ "\""
  else
    c1

end ClaudeTerminal

namespace AetherClient

theorem request_def (b : Nat → AttemptOutcome) (N d t : Nat) :
    request b N d t = requestFrom b N d t 1 N := rfl

theorem requestFrom_zero (b : Nat → AttemptOutcome) (N d t a : Nat) :
    requestFrom b N d t a 0 = ⟨.noReturn, 0, []⟩ := rfl

theorem requestFrom_succ_ok (b : Nat → AttemptOutcome) (N d t a fuel : Nat)
    (data : String) (hok : b a = .ok data) :
    requestFrom b N d t a (fuel + 1) = ⟨.success data, 1, []⟩ := by
  simp [requestFrom, hok]

theorem requestFrom_succ_failure (b : Nat → AttemptOutcome) (N d t a fuel : Nat)
    (hf : (b a).isFailure = true) :
    requestFrom b N d t a (fuel + 1) =
      if a = N then
        ⟨.failure (terminalMessage t (b a)), 1, []⟩
      else
        ⟨(requestFrom b N d t (a + 1) fuel).outcome,
          (requestFrom b N d t (a + 1) fuel).attempts + 1,
          d * a :: (requestFrom b N d t (a + 1) fuel).delays⟩ := by
  cases hba : b a <;> simp_all [requestFrom, AttemptOutcome.isFailure]

theorem requestFrom_attempts_le (b : Nat → AttemptOutcome) (N d t : Nat) :
    ∀ fuel a, (requestFrom b N d t a fuel).attempts ≤ fuel := by
  intro fuel
  induction fuel with
  | zero => intro a; simp [requestFrom_zero]
  | succ fuel ih =>
    intro a
    cases hba : b a
    case ok data =>
      rw [requestFrom_succ_ok b N d t a fuel data hba]
      dsimp only
      omega
    all_goals
      have hf : (b a).isFailure = true := by rw [hba]; rfl
      rw [requestFrom_succ_failure b N d t a fuel hf]
      by_cases hN : a = N
      · rw [if_pos hN]; dsimp only; omega
      · rw [if_neg hN]
        have := ih (a + 1)
        dsimp only
        omega

theorem requestFrom_attempts_pos (b : Nat → AttemptOutcome) (N d t a fuel : Nat)
    (hfuel : 1 ≤ fuel) : 1 ≤ (requestFrom b N d t a fuel).attempts := by
  obtain ⟨fuel, rfl⟩ : ∃ f, fuel = f + 1 := ⟨fuel - 1, by omega⟩
  cases hba : b a
  case ok data => rw [requestFrom_succ_ok b N d t a fuel data hba]
  all_goals
    have hf : (b a).isFailure = true := by rw [hba]; rfl
    rw [requestFrom_succ_failure b N d t a fuel hf]
    by_cases hN : a = N
    · rw [if_pos hN]
    · rw [if_neg hN]; dsimp only; omega

theorem requestFrom_all_fail (b : Nat → AttemptOutcome) (N d t : Nat) :
    ∀ fuel a, 1 ≤ fuel → a + fuel = N + 1 →
      (∀ k, a ≤ k → k ≤ N → (b k).isFailure = true) →
      requestFrom b N d t a fuel =
        ⟨.failure (terminalMessage t (b N)), fuel,
          (List.range' a (fuel - 1)).map (fun k => d * k)⟩ := by
  intro fuel
  induction fuel with
  | zero => intro a h1; omega
  | succ fuel ih =>
    intro a _ hsum hfail
    have hfa : (b a).isFailure = true := hfail a le_rfl (by omega)
    rw [requestFrom_succ_failure b N d t a fuel hfa]
    by_cases hN : a = N
    · have hfuel0 : fuel = 0 := by omega
      subst hfuel0
      rw [if_pos hN, hN]
      simp
    · rw [if_neg hN,
        ih (a + 1) (by omega) (by omega) (fun k hk1 hk2 => hfail k (by omega) hk2)]
      have hr : List.range' a fuel = a :: List.range' (a + 1) (fuel - 1) := by
        conv_lhs => rw [show fuel = (fuel - 1) + 1 by omega]
        exact List.range'_succ a (fuel - 1) 1
      simp [hr]

theorem requestFrom_first_success (b : Nat → AttemptOutcome) (N d t j : Nat) (data : String) :
    ∀ fuel a, a + fuel = N + 1 → a ≤ j → j ≤ N → b j = .ok data →
      (∀ k, a ≤ k → k < j → (b k).isFailure = true) →
      requestFrom b N d t a fuel =
        ⟨.success data, j - a + 1, (List.range' a (j - a)).map (fun k => d * k)⟩ := by
  intro fuel
  induction fuel with
  | zero => intro a hsum haj hjN; omega
  | succ fuel ih =>
    intro a hsum haj hjN hok hfail
    by_cases haj2 : a = j
    · subst haj2
      rw [requestFrom_succ_ok b N d t a fuel data hok]
      simp
    · have hfa : (b a).isFailure = true := hfail a le_rfl (by omega)
      rw [requestFrom_succ_failure b N d t a fuel hfa, if_neg (by omega),
        ih (a + 1) (by omega) (by omega) hjN hok (fun k hk1 hk2 => hfail k (by omega) hk2)]
      have hr : List.range' a (j - a) = a :: List.range' (a + 1) (j - (a + 1)) := by
        conv_lhs => rw [show j - a = (j - (a + 1)) + 1 by omega]
        exact List.range'_succ a (j - (a + 1)) 1
      simp only [hr, List.map_cons]
      refine congrArg (fun n => ReqTrace.mk _ n _) ?_
      omega

theorem requestFrom_delays_shape (b : Nat → AttemptOutcome) (N d t : Nat) :
    ∀ fuel a, a + fuel = N + 1 →
      (requestFrom b N d t a fuel).delays =
        (List.range' a ((requestFrom b N d t a fuel).attempts - 1)).map (fun k => d * k) := by
  intro fuel
  induction fuel with
  | zero => intro a _; simp [requestFrom_zero]
  | succ fuel ih =>
    intro a hsum
    cases hba : b a
    case ok data => rw [requestFrom_succ_ok b N d t a fuel data hba]; simp
    all_goals
      have hf : (b a).isFailure = true := by rw [hba]; rfl
      rw [requestFrom_succ_failure b N d t a fuel hf]
      by_cases hN : a = N
      · rw [if_pos hN]; simp
      · rw [if_neg hN]
        have hpos := requestFrom_attempts_pos b N d t (a + 1) fuel (by omega)
        dsimp only
        rw [ih (a + 1) (by omega)]
        have hr : List.range' a ((requestFrom b N d t (a + 1) fuel).attempts)
            = a :: List.range' (a + 1) ((requestFrom b N d t (a + 1) fuel).attempts - 1) := by
          conv_lhs => rw [show (requestFrom b N d t (a + 1) fuel).attempts
            = ((requestFrom b N d t (a + 1) fuel).attempts - 1) + 1 by omega]
          exact List.range'_succ a _ 1
        simp [hr]

theorem requestFrom_failure_kind_irrelevant (b1 b2 : Nat → AttemptOutcome) (N d t k : Nat)
    (hagree : ∀ j, j ≠ k → b1 j = b2 j)
    (hf1 : (b1 k).isFailure = true) (hf2 : (b2 k).isFailure = true) :
    ∀ fuel a,
      (requestFrom b1 N d t a fuel).attempts = (requestFrom b2 N d t a fuel).attempts
        ∧ (requestFrom b1 N d t a fuel).delays = (requestFrom b2 N d t a fuel).delays
        ∧ (requestFrom b1 N d t a fuel).outcome.isSuccess
            = (requestFrom b2 N d t a fuel).outcome.isSuccess := by
  intro fuel
  induction fuel with
  | zero => intro a; exact ⟨rfl, rfl, rfl⟩
  | succ fuel ih =>
    intro a
    by_cases hak : a = k
    · subst hak
      rw [requestFrom_succ_failure b1 N d t a fuel hf1,
        requestFrom_succ_failure b2 N d t a fuel hf2]
      by_cases hN : a = N
      · rw [if_pos hN, if_pos hN]
        exact ⟨rfl, rfl, rfl⟩
      · rw [if_neg hN, if_neg hN]
        obtain ⟨h1, h2, h3⟩ := ih (a + 1)
        exact ⟨by dsimp only; omega, by dsimp only; rw [h2], h3⟩
    · have heq : b1 a = b2 a := hagree a hak
      cases hba : b1 a
      next data =>
        rw [requestFrom_succ_ok b1 N d t a fuel data hba,
          requestFrom_succ_ok b2 N d t a fuel data (heq ▸ hba)]
        exact ⟨rfl, rfl, rfl⟩
      all_goals
        have hfa1 : (b1 a).isFailure = true := by rw [hba]; rfl
        have hfa2 : (b2 a).isFailure = true := by rw [← heq, hba]; rfl
        rw [requestFrom_succ_failure b1 N d t a fuel hfa1,
          requestFrom_succ_failure b2 N d t a fuel hfa2]
        by_cases hN : a = N
        · rw [if_pos hN, if_pos hN, heq]
          exact ⟨rfl, rfl, rfl⟩
        · rw [if_neg hN, if_neg hN]
          obtain ⟨h1, h2, h3⟩ := ih (a + 1)
          exact ⟨by dsimp only; omega, by dsimp only; rw [h2], h3⟩

end AetherClient

/-- C4: for every transport behaviour, `AetherClient.request` with
retryCount N makes at most N transport attempts; it makes exactly N
attempts when every attempt fails; and when attempt j is the first to
succeed, the call returns that attempt's decoded body and makes exactly
j attempts, so no attempt follows a success. -/
theorem request_attempt_bounds (b : Nat → AetherClient.AttemptOutcome) (N d t : Nat) :
    (AetherClient.request b N d t).attempts ≤ N
      ∧ ((∀ k, 1 ≤ k → k ≤ N → (b k).isFailure = true)
          → (AetherClient.request b N d t).attempts = N)
      ∧ (∀ j data, 1 ≤ j → j ≤ N → b j = .ok data →
          (∀ k, 1 ≤ k → k < j → (b k).isFailure = true) →
          (AetherClient.request b N d t).outcome = .success data
            ∧ (AetherClient.request b N d t).attempts = j) := by
  refine ⟨AetherClient.requestFrom_attempts_le b N d t N 1, ?_, ?_⟩
  · intro hfail
    rcases Nat.eq_zero_or_pos N with hN | hN
    · subst hN; rfl
    · rw [AetherClient.request_def,
        AetherClient.requestFrom_all_fail b N d t N 1 hN (by omega) hfail]
  · intro j data hj1 hjN hok hfail
    rw [AetherClient.request_def,
      AetherClient.requestFrom_first_success b N d t j data N 1 (by omega) hj1 hjN hok hfail]
    exact ⟨rfl, by dsimp only; omega⟩

/-- Witness for C4 at concrete behaviours: an all-failing 3-attempt run
makes exactly 3 attempts, and a run succeeding on attempt 3 returns the
decoded body. -/
theorem request_attempt_bounds_witness :
    (AetherClient.request (fun _ => .networkError "ECONNREFUSED") 3 1000 30000).attempts = 3
      ∧ (AetherClient.request (fun k => if k = 3 then .ok "d" else .networkError "e")
          3 1000 30000).outcome = .success "d" := by
  constructor
  · exact (request_attempt_bounds (fun _ => .networkError "ECONNREFUSED") 3 1000 30000).2.1
      (fun k h1 h2 => rfl)
  · exact ((request_attempt_bounds (fun k => if k = 3 then .ok "d" else .networkError "e")
        3 1000 30000).2.2 3 "d" (by omega) (by omega) rfl
      (fun k h1 h2 => by interval_cases k <;> rfl)).1

/-- C5: the backoff delays awaited by `AetherClient.request` are exactly
retryDelay * 1, retryDelay * 2, ..., retryDelay * (attempts - 1): the
wait between failed attempt k and attempt k+1 is retryDelay * k (linear
backoff) and no delay follows the final attempt. At the defaults
(base delay 1000ms, 3 attempts, all failing) the waits are 1000ms then
2000ms. -/
theorem request_backoff_delays (b : Nat → AetherClient.AttemptOutcome) (N d t : Nat) :
    (AetherClient.request b N d t).delays
        = (List.range' 1 ((AetherClient.request b N d t).attempts - 1)).map (fun k => d * k)
      ∧ (AetherClient.request b N d t).delays.length
          = (AetherClient.request b N d t).attempts - 1
      ∧ (AetherClient.request (fun _ => .networkError "ECONNREFUSED") 3 1000 30000).delays
          = [1000, 2000] := by
  have h := AetherClient.requestFrom_delays_shape b N d t N 1 (by omega)
  refine ⟨h, ?_, rfl⟩
  rw [AetherClient.request_def, h]
  simp

/-- C6: when every attempt fails, `AetherClient.request` throws exactly
one terminal error determined by the final attempt's failure kind: a
timeout on the last attempt yields the distinguished taking-too-long
message, while a network failure or non-success HTTP status on the last
attempt yields the connection-failed message wrapping that last cause's
description. -/
theorem request_terminal_error (b : Nat → AetherClient.AttemptOutcome) (N d t : Nat)
    (hN : 1 ≤ N) (hfail : ∀ k, 1 ≤ k → k ≤ N → (b k).isFailure = true) :
    (b N = .abortError →
        (AetherClient.request b N d t).outcome
          = .failure "The AI is taking too long to respond. Please try again.")
      ∧ (∀ m, b N = .networkError m →
          (AetherClient.request b N d t).outcome = .failure ("Connection failed: " ++ m))
      ∧ (∀ status statusText, b N = .httpError status statusText →
          (AetherClient.request b N d t).outcome
            = .failure ("Connection failed: HTTP " ++ toString status ++ ": " ++ statusText)) := by
  have h : (AetherClient.request b N d t).outcome
      = .failure (AetherClient.terminalMessage t (b N)) := by
    rw [AetherClient.request_def,
      AetherClient.requestFrom_all_fail b N d t N 1 hN (by omega) hfail]
  refine ⟨fun hb => ?_, fun m hb => ?_, fun status statusText hb => ?_⟩ <;>
    rw [h, hb] <;> rfl

/-- Witness for C6: a run whose last attempt times out reports the
distinguished message; a run whose last attempt is a connection refusal
reports the wrapped generic message. -/
theorem request_terminal_error_witness :
    (AetherClient.request (fun _ => .abortError) 3 1000 90000).outcome
        = .failure "The AI is taking too long to respond. Please try again."
      ∧ (AetherClient.request (fun _ => .networkError "ECONNREFUSED") 3 1000 30000).outcome
          = .failure "Connection failed: ECONNREFUSED" := by
  constructor
  · exact (request_terminal_error (fun _ => .abortError) 3 1000 90000 (by omega)
      (fun k h1 h2 => rfl)).1 rfl
  · exact (request_terminal_error (fun _ => .networkError "ECONNREFUSED") 3 1000 30000 (by omega)
      (fun k h1 h2 => rfl)).2.1 "ECONNREFUSED" rfl

/-- C7: a response the transport flags as non-success is an attempt
failure, and every failure kind (non-2xx status, network failure,
timeout) is retried identically: swapping the failure kind of any one
attempt changes neither the number of transport attempts, nor the
backoff delays, nor whether the call ultimately succeeds — no status
class distinction exists for retry eligibility. -/
theorem request_failure_kinds_uniform (b1 b2 : Nat → AetherClient.AttemptOutcome)
    (N d t k : Nat) (hagree : ∀ j, j ≠ k → b1 j = b2 j)
    (hf1 : (b1 k).isFailure = true) (hf2 : (b2 k).isFailure = true) :
    (∀ status statusText, (AetherClient.AttemptOutcome.httpError status statusText).isFailure
        = true)
      ∧ (AetherClient.request b1 N d t).attempts = (AetherClient.request b2 N d t).attempts
      ∧ (AetherClient.request b1 N d t).delays = (AetherClient.request b2 N d t).delays
      ∧ (AetherClient.request b1 N d t).outcome.isSuccess
          = (AetherClient.request b2 N d t).outcome.isSuccess :=
  ⟨fun _ _ => rfl,
    AetherClient.requestFrom_failure_kind_irrelevant b1 b2 N d t k hagree hf1 hf2 N 1⟩

/-- Witness for C7: an HTTP 404 on attempt 2 and a timeout on attempt 2
produce the same attempt count and the same backoff delays. -/
theorem request_failure_kinds_uniform_witness :
    (AetherClient.request
        (fun k => if k = 2 then .httpError 404 "Not Found" else .networkError "e")
        3 1000 30000).attempts
      = (AetherClient.request (fun k => if k = 2 then .abortError else .networkError "e")
          3 1000 30000).attempts := by
  exact (request_failure_kinds_uniform
    (fun k => if k = 2 then .httpError 404 "Not Found" else .networkError "e")
    (fun k => if k = 2 then .abortError else .networkError "e")
    3 1000 30000 2 (fun j hj => by simp [hj]) rfl rfl).2.1

/-- C1 counterexample: with another chat call already outstanding,
`sendChatMessage` takes the single-flight path, which throws the
guard error to its caller (the async function's promise rejects); it
does not resolve to a structured result object, so the claim that every
failure path, the single-flight rejection included, resolves rather than
raises is false on the code. -/
theorem sendChatMessage_single_flight_throws :
    (AetherClient.sendChatMessage ⟨"sess", true⟩ (.ok ⟨some "hi", none⟩) "ts").1
        = .thrown "Another request is already in progress. Please wait."
      ∧ (AetherClient.sendChatMessage ⟨"sess", true⟩ (.ok ⟨some "hi", none⟩) "ts").1.isResolved
          = false :=
  ⟨rfl, rfl⟩

/-- C1 (amended): whenever no chat call is outstanding,
`sendChatMessage` never raises: every transport failure resolves to the
structured result with success false, the error message, the session id
and the timestamp, and every transport success resolves as well. The
single-flight rejection taken when another chat call is outstanding is,
by contrast, thrown to the caller. Every failure of `getChatHistory`
resolves to an empty-history result rather than propagating. -/
theorem sendChatMessage_resolves_when_free (st : AetherClient.ClientState)
    (transport : Except String AetherClient.ChatResponse) (ts : String)
    (hfree : st.isRequestInProgress = false) :
    (AetherClient.sendChatMessage st transport ts).1.isResolved = true
      ∧ (∀ e, transport = .error e →
          (AetherClient.sendChatMessage st transport ts).1
            = .resolved ⟨false, none, some e, st.sessionId, ts⟩)
      ∧ (∀ e, AetherClient.getChatHistory (.error e) = ⟨[]⟩) := by
  refine ⟨?_, ?_, fun e => rfl⟩
  · cases transport <;>
      simp [AetherClient.sendChatMessage, AetherClient.chatGuard, hfree,
        AetherClient.chatSettle, AetherClient.ChatCallResult.isResolved]
  · intro e he
    subst he
    simp [AetherClient.sendChatMessage, AetherClient.chatGuard, hfree,
      AetherClient.chatSettle]

/-- Witness for C1 (amended): a free client whose transport fails
resolves to the structured failure result. -/
theorem sendChatMessage_resolves_when_free_witness :
    (AetherClient.sendChatMessage ⟨"sess", false⟩ (.error "boom") "ts").1
      = .resolved ⟨false, none, some "boom", "sess", "ts"⟩ :=
  (sendChatMessage_resolves_when_free ⟨"sess", false⟩ (.error "boom") "ts" rfl).2.1 "boom" rfl

/-- C2: a chat call that begins while another is outstanding (the
in-flight flag is set) throws the guard error immediately, invokes no
transport attempt and leaves the state untouched; a first call on a free
client sets the in-flight flag (so a concurrent second call hits the
guard); and settling — whatever the transport outcome — clears the flag,
after which a subsequent chat call is accepted: it dispatches to the
transport and resolves. Hence at most one chat call is in flight at a
time. -/
theorem sendChatMessage_single_flight_order (st st1 : AetherClient.ClientState)
    (tr tr2 : Except String AetherClient.ChatResponse) (ts ts2 : String) :
    (st.isRequestInProgress = true →
        AetherClient.sendChatMessage st tr ts
          = (.thrown "Another request is already in progress. Please wait.", false, st))
      ∧ (st.isRequestInProgress = false →
          AetherClient.chatGuard st = some ⟨st.sessionId, true⟩)
      ∧ (AetherClient.chatSettle st1 tr ts).2.isRequestInProgress = false
      ∧ (AetherClient.sendChatMessage (AetherClient.chatSettle st1 tr ts).2 tr2 ts2).2.1 = true
      ∧ (AetherClient.sendChatMessage (AetherClient.chatSettle st1 tr ts).2 tr2 ts2).1.isResolved
          = true := by
  refine ⟨fun hbusy => ?_, fun hfree => ?_, ?_, ?_, ?_⟩
  · simp [AetherClient.sendChatMessage, AetherClient.chatGuard, hbusy]
  · simp [AetherClient.chatGuard, hfree]
  · cases tr <;> simp [AetherClient.chatSettle]
  · cases tr <;> cases tr2 <;>
      simp [AetherClient.sendChatMessage, AetherClient.chatGuard, AetherClient.chatSettle]
  · cases tr <;> cases tr2 <;>
      simp [AetherClient.sendChatMessage, AetherClient.chatGuard, AetherClient.chatSettle,
        AetherClient.ChatCallResult.isResolved]

/-- Witness for C2: a busy client rejects a second call without a
transport attempt; a free client sets the flag; a settled call leaves
the flag cleared and the next call is accepted. -/
theorem sendChatMessage_single_flight_order_witness :
    AetherClient.sendChatMessage ⟨"s", true⟩ (.error "x") "t"
        = (.thrown "Another request is already in progress. Please wait.", false, ⟨"s", true⟩)
      ∧ AetherClient.chatGuard ⟨"s", false⟩ = some ⟨"s", true⟩
      ∧ (AetherClient.chatSettle ⟨"s", true⟩ (.error "x") "t").2.isRequestInProgress = false
      ∧ (AetherClient.sendChatMessage (AetherClient.chatSettle ⟨"s", true⟩ (.error "x") "t").2
          (.ok ⟨some "hi", none⟩) "t2").2.1 = true :=
  ⟨(sendChatMessage_single_flight_order ⟨"s", true⟩ ⟨"s", true⟩ (.error "x")
      (.ok ⟨some "hi", none⟩) "t" "t2").1 rfl,
    (sendChatMessage_single_flight_order ⟨"s", false⟩ ⟨"s", true⟩ (.error "x")
      (.ok ⟨some "hi", none⟩) "t" "t2").2.1 rfl,
    (sendChatMessage_single_flight_order ⟨"s", false⟩ ⟨"s", true⟩ (.error "x")
      (.ok ⟨some "hi", none⟩) "t" "t2").2.2.1,
    (sendChatMessage_single_flight_order ⟨"s", false⟩ ⟨"s", true⟩ (.error "x")
      (.ok ⟨some "hi", none⟩) "t" "t2").2.2.2.1⟩






/-- C3 counterexample: not-running is not terminal for a ClaudeTerminal
instance. After an explicit kill — and likewise after the process's own
exit — a later `startSession` call on the same instance spawns a new
process and returns it to Running, contradicting the claim that a new
instance is required to run again. -/
theorem startSession_restarts_after_kill :
    ((ClaudeTerminal.startSession
        (ClaudeTerminal.kill
          (ClaudeTerminal.startSession ClaudeTerminal.initialTerm (.ok 1)).2).2
        (.ok 2)).2).isRunning = true
      ∧ ((ClaudeTerminal.startSession
          (ClaudeTerminal.processExit
            (ClaudeTerminal.startSession ClaudeTerminal.initialTerm (.ok 1)).2).2
          (.ok 2)).2).isRunning = true :=
  ⟨rfl, rfl⟩

/-- C3 (amended): the process's own termination and `kill` both clear
the running flag, but the resulting not-running state is not terminal:
whenever the instance is not running, a subsequent `startSession` whose
spawn succeeds stores the new handle and returns the same instance to
Running (only a failed spawn leaves the state untouched); no new
ClaudeTerminal instance is required to run again. -/
theorem startSession_restartable (st st2 : ClaudeTerminal.TermState) (h : Nat) (e : String)
    (hnr : st.isRunning = false) :
    (ClaudeTerminal.startSession st (.ok h)).2 = ⟨some h, true⟩
      ∧ (ClaudeTerminal.startSession st (.error e)).2 = st
      ∧ (st2.ptyProcess.isSome = true → ((ClaudeTerminal.kill st2).2).isRunning = false)
      ∧ ((ClaudeTerminal.processExit st2).2).isRunning = false := by
  refine ⟨?_, ?_, fun hp => ?_, rfl⟩
  · simp [ClaudeTerminal.startSession, hnr]
  · simp [ClaudeTerminal.startSession, hnr]
  · simp [ClaudeTerminal.kill, hp]

/-- Witness for C3 (amended): a killed session restarts. -/
theorem startSession_restartable_witness :
    (ClaudeTerminal.startSession ⟨some 1, false⟩ (.ok 2)).2 = ⟨some 2, true⟩
      ∧ ((ClaudeTerminal.kill ⟨some 1, true⟩).2).isRunning = false :=
  ⟨(startSession_restartable ⟨some 1, false⟩ ⟨some 1, true⟩ 2 "e" rfl).1,
    (startSession_restartable ⟨some 1, false⟩ ⟨some 1, true⟩ 2 "e" rfl).2.2.1 rfl⟩

/-- A generated session token is never the empty string, so a persisted
token is never read back as falsy. -/
theorem freshToken_ne_empty (now : Nat) (rand : String) :
    AetherClient.freshToken now rand ≠ "" := by
  intro h
  have h2 := congrArg String.length h
  simp [AetherClient.freshToken, String.length_append] at h2
  exact absurd h2.1.1.1 (by decide)

/-- Every call of `getOrCreateSessionId` leaves the storage holding
exactly the token it returns, and that token is non-empty. -/
theorem getOrCreateSessionId_persists (store : AetherClient.Storage) (now : Nat) (rand : String) :
    (AetherClient.getOrCreateSessionId store now rand).2
        = some (AetherClient.getOrCreateSessionId store now rand).1
      ∧ (AetherClient.getOrCreateSessionId store now rand).1 ≠ "" := by
  match store with
  | none => exact ⟨rfl, freshToken_ne_empty now rand⟩
  | some s =>
    by_cases hs : s = ""
    · subst hs
      exact ⟨rfl, freshToken_ne_empty now rand⟩
    · simp [AetherClient.getOrCreateSessionId, hs]

/-- C8: `getOrCreateSessionId` called twice with no intervening clear
returns the identical token both times; `clearSession` discards the
stored token and returns the freshly generated one, so the result
differs from the pre-clear value whenever the generator output does
(the generator combines the clock with a random suffix, and its
freshness across calls is an assumption about the environment, not the
code); and on return from `clearSession` a persisted current token is
already present — as it is after every `getOrCreateSessionId` call. -/
theorem sessionIdentity_roundtrip (store : AetherClient.Storage)
    (n1 n2 n3 : Nat) (r1 r2 r3 : String) (sid0 : String)
    (hdiff : AetherClient.freshToken n3 r3 ≠ sid0) :
    (AetherClient.getOrCreateSessionId
          (AetherClient.getOrCreateSessionId store n1 r1).2 n2 r2).1
        = (AetherClient.getOrCreateSessionId store n1 r1).1
      ∧ (AetherClient.clearSession (some sid0) n3 r3).1 = AetherClient.freshToken n3 r3
      ∧ (AetherClient.clearSession (some sid0) n3 r3).1 ≠ sid0
      ∧ (AetherClient.clearSession (some sid0) n3 r3).2
          = some (AetherClient.clearSession (some sid0) n3 r3).1 := by
  obtain ⟨hpersist, hne⟩ := getOrCreateSessionId_persists store n1 r1
  refine ⟨?_, rfl, hdiff, rfl⟩
  rw [hpersist]
  generalize (AetherClient.getOrCreateSessionId store n1 r1).1 = X at hne ⊢
  simp [AetherClient.getOrCreateSessionId, hne]

/-- Witness for C8 at a concrete storage state and generator values. -/
theorem sessionIdentity_roundtrip_witness :
    (AetherClient.getOrCreateSessionId
          (AetherClient.getOrCreateSessionId none 1 "a").2 2 "b").1
        = (AetherClient.getOrCreateSessionId none 1 "a").1
      ∧ (AetherClient.clearSession (some "session_1_a") 2 "b").1 ≠ "session_1_a" :=
  ⟨(sessionIdentity_roundtrip none 1 2 2 "a" "b" "b" "session_1_a" (by decide)).1,
    (sessionIdentity_roundtrip none 1 2 2 "a" "b" "b" "session_1_a" (by decide)).2.2.1⟩

/-- C9: composing the Claude command for the task titled Fix bug with
priority high and free-form context data urgent yields exactly the base
invocation followed by the Current Task context flag, the Priority
context flag and the verbatim context-data flag, in that order; a
missing (or empty, hence falsy) priority omits the second flag, a
missing task omits the first two, and missing context data omits the
last. -/
theorem launchCommand_composition (title p d : String) (hp : p ≠ "") (hd : d ≠ "") :
    ClaudeTerminal.launchCommand (some ⟨"Fix bug", some "high"⟩) (some "urgent")
        = "claude --context \"Current Task: Fix bug\" --context \"Priority: high\" --context \"urgent\""
      ∧ ClaudeTerminal.launchCommand (some ⟨title, some p⟩) (some d)
          = "claude --context \"Current Task: " ++ title ++ "\" --context \"Priority: " ++ p
              ++ "\" --context \"" ++ d ++ "\""
      ∧ ClaudeTerminal.launchCommand (some ⟨title, none⟩) (some d)
          = "claude --context \"Current Task: " ++ title ++ "\" --context \"" ++ d ++ "\""
      ∧ ClaudeTerminal.launchCommand none (some d) = "claude --context \"" ++ d ++ "\""
      ∧ ClaudeTerminal.launchCommand (some ⟨title, some p⟩) none
          = "claude --context \"Current Task: " ++ title ++ "\" --context \"Priority: "
              ++ p ++ "\"" := by
  have hpb : (p == "") = false := by simp [hp]
  have hdb : (d == "") = false := by simp [hd]
  refine ⟨rfl, ?_, ?_, ?_, ?_⟩ <;>
    simp only [ClaudeTerminal.launchCommand, ClaudeTerminal.strTruthy, Option.getD_some,
      hpb, hdb, Bool.not_false, Bool.false_eq_true, ite_true, ite_false] <;>
    simp [String.append_assoc]

/-- Witness for C9 at concrete task data. -/
theorem launchCommand_composition_witness :
    ClaudeTerminal.launchCommand (some ⟨"Fix bug", some "high"⟩) (some "urgent")
      = "claude --context \"Current Task: Fix bug\" --context \"Priority: high\" --context \"urgent\"" :=
  (launchCommand_composition "Fix bug" "high" "urgent" (by decide) (by decide)).1

/-- C10: while a ClaudeTerminal session is not running, `write` and
`resize` are silent no-ops — total functions that send nothing to the
pty process and return the state unchanged; and on every reachable state
the running flag implies a non-null pty handle, so `write` and `resize`
never dereference a null handle. -/
theorem write_resize_noop_when_not_running (st : ClaudeTerminal.TermState)
    (data : String) (cols rows : Nat) (hnr : st.isRunning = false) :
    ClaudeTerminal.write st data = ([], st)
      ∧ ClaudeTerminal.resize st cols rows = ([], st)
      ∧ (∀ st2 : ClaudeTerminal.TermState, ClaudeTerminal.Reachable st2 →
          st2.isRunning = true → st2.ptyProcess.isSome = true) := by
  refine ⟨?_, ?_, ?_⟩
  · simp [ClaudeTerminal.write, hnr]
  · simp [ClaudeTerminal.resize, hnr]
  · intro st2 hreach
    induction hreach with
    | init => intro h; simp [ClaudeTerminal.initialTerm] at h
    | start st3 r _ ih =>
      by_cases hrun : st3.isRunning
      · simpa [ClaudeTerminal.startSession, hrun] using ih
      · cases r with
        | ok hdl => intro _; simp [ClaudeTerminal.startSession, hrun]
        | error e => simp only [ClaudeTerminal.startSession, hrun, if_false]; exact ih
    | exitStep st3 _ _ => intro h; simp [ClaudeTerminal.processExit] at h
    | killStep st3 _ ih =>
      by_cases hp : st3.ptyProcess.isSome
      · intro _; simp [ClaudeTerminal.kill, hp]
      · simpa [ClaudeTerminal.kill, hp] using ih

/-- Witness for C10: on the freshly constructed (idle) terminal, write
and resize send nothing and change nothing, and a started session has a
handle. -/
theorem write_resize_noop_when_not_running_witness :
    ClaudeTerminal.write ClaudeTerminal.initialTerm "ls" = ([], ClaudeTerminal.initialTerm)
      ∧ ClaudeTerminal.resize ClaudeTerminal.initialTerm 80 24
          = ([], ClaudeTerminal.initialTerm)
      ∧ ((ClaudeTerminal.startSession ClaudeTerminal.initialTerm (.ok 1)).2).ptyProcess.isSome
          = true :=
  ⟨(write_resize_noop_when_not_running ClaudeTerminal.initialTerm "ls" 80 24 rfl).1,
    (write_resize_noop_when_not_running ClaudeTerminal.initialTerm "ls" 80 24 rfl).2.1,
    (write_resize_noop_when_not_running ClaudeTerminal.initialTerm "ls" 80 24 rfl).2.2
      (ClaudeTerminal.startSession ClaudeTerminal.initialTerm (.ok 1)).2
      (ClaudeTerminal.Reachable.start ClaudeTerminal.initialTerm (.ok 1)
        ClaudeTerminal.Reachable.init) rfl⟩
